import Mathlib

/-!
Verification of the pyJobber scraping core: a shallow embedding of the
rate limiter (`utils/rate_limiter.py`), the thread-safe status object and
background scraper (`core/background_scraper.py`), the filtering stage
(`core/filters.py`), the orchestration pipeline (`core/scraper.py`) and the
two providers (`providers/bestjobs.py`, `providers/ejobs.py`), together
with theorems settling the behavioural claims about them.

File I/O, wall-clock time and HTTP are made explicit: the timestamp file
becomes a `FileState` value threaded through the functions, `datetime.now()`
becomes a numeric parameter, and each provider receives its HTTP responses
as a function argument.  Exceptions become `Except` values.  Pandas
DataFrames are modelled as a column list plus rows of cells, with the
pandas operations the code uses (construction from records, column
selection, boolean-mask filtering, rename, concat with column alignment,
stable sort, column append) given their library semantics.
-/

namespace PyJobber

/-- A single cell of a tabular value: `null` models pandas NaN / Python None. -/
inductive Cell where
  | null : Cell
  | str : String → Cell
  | int : Int → Cell
deriving DecidableEq, Repr

/-- A raw record as returned by a provider API: an association list from
field names to values (a Python dict). -/
abbrev RecordRow := List (String × Cell)

/-! ## Rate limiter (`utils/rate_limiter.py`) -/

/-- The observable states of the timestamp file: absent, present but
unreadable (raises `IOError`), present with content that
`datetime.fromisoformat` rejects (raises `ValueError`), or present with a
parsable timestamp, represented by its value in seconds. -/
inductive FileState where
  | absent : FileState
  | unreadable : FileState
  | unparsable : String → FileState
  | parsable : Int → FileState
deriving DecidableEq, Repr

/-- Seconds in `timedelta(days=1)`. -/
def secondsPerDay : Int := 86400

/-- `check_last_run`: returns whether 24 hours have passed since the stored
timestamp, together with the (unmodified) file state.  Mirrors the Python
control flow: missing file → `True`; `IOError` or `ValueError` on
read/parse are caught → `True`; otherwise `True` iff
`now - last_run >= timedelta(days=1)`. -/
def check_last_run (now : Int) (fs : FileState) : Bool × FileState :=
  match fs with
  | .absent => (true, fs)
  | .unreadable => (true, fs)
  | .unparsable _ => (true, fs)
  | .parsable t => (decide (secondsPerDay ≤ now - t), fs)

/-- `update_timestamp`: overwrites the file with the current time. -/
def update_timestamp (now : Int) (_fs : FileState) : FileState :=
  .parsable now

/-! ## Scraper status (`core/background_scraper.py`, class `ScraperStatus`) -/

/-- The fields of a `ScraperStatus` object (the lock is concurrency-only
and has no sequential content).  Times are abstract instants (`Nat`). -/
structure ScraperStatus where
  status : String
  progress : String
  error : Option String
  start_time : Option Nat
  end_time : Option Nat
deriving DecidableEq, Repr

/-- The `ScraperStatus.__init__` state. -/
def ScraperStatus.init : ScraperStatus :=
  { status := "idle", progress := "", error := none,
    start_time := none, end_time := none }

/-- `ScraperStatus.set_status`: stores status and progress; sets
`start_time` on the first transition into `running`; sets `end_time` on a
transition to `completed` or `failed`. -/
def set_status (s : ScraperStatus) (status progress : String) (now : Nat) :
    ScraperStatus :=
  let s1 := { s with status := status, progress := progress }
  if status = "running" ∧ s1.start_time = none then
    { s1 with start_time := some now }
  else if status = "completed" ∨ status = "failed" then
    { s1 with end_time := some now }
  else
    s1

/-- `ScraperStatus.set_error`: records the error and sets status to
`failed`; it does not touch `end_time`. -/
def set_error (s : ScraperStatus) (e : String) : ScraperStatus :=
  { s with error := some e, status := "failed" }

/-- One mutation of a `ScraperStatus` object, for reasoning about update
sequences. -/
inductive StatusOp where
  | setSt : String → String → Nat → StatusOp
  | setErr : String → StatusOp
deriving DecidableEq, Repr

/-- Apply one mutation. -/
def applyOp (s : ScraperStatus) : StatusOp → ScraperStatus
  | .setSt status progress now => set_status s status progress now
  | .setErr e => set_error s e

/-- Apply a sequence of mutations in order. -/
def applyOps (s : ScraperStatus) (ops : List StatusOp) : ScraperStatus :=
  ops.foldl applyOp s

/-! ## Background scraper (`core/background_scraper.py`, class `BackgroundScraper`) -/

/-- `BackgroundScraper` state: the status object and the worker thread
slot (`none` = no thread ever spawned; `some alive` = a thread object whose
`is_alive()` returns `alive`). -/
structure BackgroundScraper where
  status : ScraperStatus
  thread : Option Bool
deriving DecidableEq, Repr

/-- The Python truthiness test `self.thread and self.thread.is_alive()`. -/
def threadAliveCheck (t : Option Bool) : Bool :=
  match t with
  | some alive => alive
  | none => false

/-- `BackgroundScraper.start`: `gate` is the value of
`should_run_scraper()` (the rate-gate check).  Returns the new object
state, the boolean return value, and whether a new worker thread was
spawned by this call. -/
def BackgroundScraper.start (gate : Bool) (now : Nat) (s : BackgroundScraper) :
    BackgroundScraper × Bool × Bool :=
  if ¬ gate then
    ({ s with status :=
        set_status s.status "idle" "Rate limit not reached - using cached data" now },
     false, false)
  else if threadAliveCheck s.thread then
    (s, false, false)
  else
    ({ status := set_status s.status "running" "Initializing scraper..." now,
       thread := some true },
     true, true)

/-! ## A model of the pandas operations the code uses -/

/-- A DataFrame: an ordered list of column names and rows of cells, each
row aligned positionally with the column list. -/
structure DataFrame where
  cols : List String
  rows : List (List Cell)
deriving DecidableEq, Repr

/-- Read the cell of `row` in column `c`; a column that is absent (or a
row shorter than the column list) reads as `null` — pandas fills missing
entries with NaN. -/
def rowGet (cols : List String) (row : List Cell) (c : String) : Cell :=
  row.getD (cols.indexOf c) Cell.null

/-- First-appearance-order deduplication of a name list (the column order
pandas gives a frame built from a list of dicts). -/
def dedupFirst (seen : List String) : List String → List String
  | [] => []
  | c :: cs =>
    if seen.contains c then dedupFirst seen cs
    else c :: dedupFirst (c :: seen) cs

/-- `pd.DataFrame(records)`: columns are the keys in order of first
appearance across the records; a record missing a key gets `null` there. -/
def DataFrame.ofRecords (recs : List RecordRow) : DataFrame :=
  let cols := dedupFirst [] (recs.flatMap (fun r => r.map Prod.fst))
  { cols := cols,
    rows := recs.map (fun rec => cols.map (fun c => ((rec.lookup c).getD Cell.null))) }

/-- `pd.DataFrame(columns=cs)`: an empty frame with the given columns. -/
def DataFrame.emptyWith (cs : List String) : DataFrame :=
  { cols := cs, rows := [] }

/-- `df[cs]` for a list of column labels: fails with `KeyError` when any
requested label is not among the frame's columns, otherwise projects every
row to exactly the requested columns in the requested order. -/
def DataFrame.select (df : DataFrame) (cs : List String) : Except String DataFrame :=
  if cs.all (fun c => df.cols.contains c) then
    .ok { cols := cs, rows := df.rows.map (fun r => cs.map (rowGet df.cols r)) }
  else
    .error "KeyError: columns not in index"

/-- `df[mask]` for a boolean mask computed row-wise: keeps the rows
satisfying the predicate, preserving order. -/
def DataFrame.filterRows (df : DataFrame) (p : List Cell → Bool) : DataFrame :=
  { cols := df.cols, rows := df.rows.filter p }

/-- `df.rename(columns={old: new})`. -/
def DataFrame.renameCol (df : DataFrame) (old new : String) : DataFrame :=
  { df with cols := df.cols.map (fun c => if c = old then new else c) }

/-- `pd.concat([d1, d2], ignore_index=True)`: the column set is the union
(d1's columns, then d2's new ones); every row is realigned to it, missing
entries reading as `null`. -/
def DataFrame.concat (d1 d2 : DataFrame) : DataFrame :=
  let cols := d1.cols ++ d2.cols.filter (fun c => ¬ d1.cols.contains c)
  { cols := cols,
    rows := d1.rows.map (fun r => cols.map (rowGet d1.cols r))
            ++ d2.rows.map (fun r => cols.map (rowGet d2.cols r)) }

/-- A comparison on cells (numbers below strings, `null` last, matching
pandas' default `na_position`); only used to model `sort_values`. -/
def cellLe (a b : Cell) : Bool :=
  match a, b with
  | .null, .null => true
  | .null, _ => false
  | _, .null => true
  | .int m, .int n => decide (m ≤ n)
  | .int _, .str _ => true
  | .str _, .int _ => false
  | .str s, .str t => decide (s ≤ t)

/-- Stable insertion: place `x` before the first element `y` with
`le x y`. -/
def insertLe (le : α → α → Bool) (x : α) : List α → List α
  | [] => [x]
  | y :: ys => if le x y then x :: y :: ys else y :: insertLe le x ys

/-- Stable insertion sort. -/
def stableSort (le : α → α → Bool) : List α → List α
  | [] => []
  | x :: xs => insertLe le x (stableSort le xs)

/-- `df.sort_values(by=c)`: stable ascending sort on column `c`. -/
def DataFrame.sortValues (df : DataFrame) (c : String) : DataFrame :=
  { df with
    rows := stableSort
              (fun r1 r2 => cellLe (rowGet df.cols r1 c) (rowGet df.cols r2 c))
              df.rows }

/-- `df[name] = values`: append one column on the right. -/
def DataFrame.addCol (df : DataFrame) (name : String) (vals : List Cell) : DataFrame :=
  { cols := df.cols ++ [name],
    rows := df.rows.zipWith (fun r v => r ++ [v]) vals }

/-! ## Filter stage (`core/filters.py`) -/

/-- Python's `line.strip()`: drop leading and trailing whitespace
(modelled on the character list of the string). -/
def pyStrip (s : String) : String :=
  String.mk
    (((s.toList.dropWhile Char.isWhitespace).reverse.dropWhile Char.isWhitespace).reverse)

/-- `load_banned_words`: the file is a list of lines when readable
(`none` models `FileNotFoundError` or any other read error, both of which
return `[]`); kept entries are the stripped non-empty lines. -/
def load_banned_words (file : Option (List String)) : List String :=
  match file with
  | none => []
  | some lines => (lines.map pyStrip).filter (fun w => w ≠ "")

/-- Python's `s.lower()`, viewed as the character sequence of the result
(lower-casing is per character). -/
def pyLower (s : String) : List Char :=
  s.toList.map Char.toLower

/-- Python's `needle in hay` on strings: substring containment. -/
def pyIn (needle hay : List Char) : Bool :=
  decide (needle <:+: hay)

/-- Whether a cell holds a Python `str`. -/
def Cell.isStr : Cell → Bool
  | .str _ => true
  | _ => false

/-- The string held by a cell (`""` for non-strings; only read under an
`isStr` guard). -/
def Cell.strVal : Cell → String
  | .str s => s
  | _ => ""

/-- The row mask of `filter_jobs_by_banned_words`:
`not any(banned_word.lower() in x.lower() for banned_word in banned_words)`
applied to the row's title. -/
def bannedMask (cols : List String) (banned_words : List String) (r : List Cell) : Bool :=
  ¬ banned_words.any (fun w => pyIn (pyLower w) (pyLower (rowGet cols r "title").strVal))

/-- `filter_jobs_by_banned_words`: empty frame or empty banned list short-
circuits to the input; otherwise rows whose title contains some banned
word case-insensitively are dropped.  A missing `title` column or a
non-string title raises inside the mask computation; the surrounding
`except` returns the input unfiltered (the final `else`). -/
def filter_jobs_by_banned_words (df : DataFrame) (bannedFile : Option (List String)) :
    DataFrame :=
  let banned_words := load_banned_words bannedFile
  if df.rows.length = 0 ∨ banned_words = [] then df
  else if df.cols.contains "title"
          ∧ df.rows.all (fun r => (rowGet df.cols r "title").isStr) then
    df.filterRows (bannedMask df.cols banned_words)
  else df

/-! ## Providers (`providers/bestjobs.py`, `providers/ejobs.py`) -/

/-- `str(x)` as used in the link f-strings. -/
def Cell.pyStr : Cell → String
  | .null => "None"
  | .str s => s
  | .int n => toString n

/-- `BestJobsProvider.get_required_columns()`. -/
def bestjobs_required_columns : List String :=
  ["id", "slug", "title", "companyName", "active", "ownApplyUrl"]

/-- `EJobsProvider.get_required_columns()`. -/
def ejobs_required_columns : List String :=
  ["id", "title", "slug", "creationDate", "expirationDate", "externalUrl"]

/-- `BestJobsProvider.create_job_link`. -/
def bestjobs_link (cols : List String) (row : List Cell) : Cell :=
  .str ("https://www.bestjobs.eu/loc-de-munca/" ++ (rowGet cols row "slug").pyStr)

/-- `EJobsProvider.create_job_link`. -/
def ejobs_link (cols : List String) (row : List Cell) : Cell :=
  .str ("https://www.ejobs.ro/user/locuri-de-munca/"
        ++ (rowGet cols row "slug").pyStr ++ "/" ++ (rowGet cols row "id").pyStr)

/-- One eJobs page response: a network/HTTP failure (raises), or a JSON
body with an optional `jobs` list and the `morePagesFollow` flag (already
defaulted to `false` when absent, as `response_data.get` does). -/
inductive EPageResp where
  | netError : String → EPageResp
  | payload : Option (List RecordRow) → Bool → EPageResp

/-- The `while True` pagination loop of `EJobsProvider.fetch_jobs`,
given the response for every page number; `fuel` bounds the number of
iterations modelled, `none` meaning the loop was still running.  A page
without a `jobs` field breaks out of the loop with the accumulated
results; a network error propagates as an exception. -/
def ejobs_fetch_loop (pages : Nat → EPageResp) :
    Nat → Nat → List RecordRow → Option (Except String (List RecordRow))
  | 0, _, _ => none
  | fuel + 1, page, acc =>
    match pages page with
    | .netError e => some (.error e)
    | .payload none _ => some (.ok acc)
    | .payload (some jobs) more =>
      if more then ejobs_fetch_loop pages fuel (page + 1) (acc ++ jobs)
      else some (.ok (acc ++ jobs))

/-- `EJobsProvider.fetch_jobs`: the loop started at page 1 with an empty
accumulator. -/
def ejobs_fetch_jobs (pages : Nat → EPageResp) (fuel : Nat) :
    Option (Except String (List RecordRow)) :=
  ejobs_fetch_loop pages fuel 1 []

/-- The query parameters of one BestJobs request. -/
structure BRequest where
  offset : Nat
  limit : Nat
  remote : Nat
deriving DecidableEq, Repr

/-- One BestJobs response: a network/HTTP failure (raises), or a JSON
body with optional `total` and `items` fields. -/
inductive BResponse where
  | netError : String → BResponse
  | payload : Option Nat → Option (List RecordRow) → BResponse

/-- `BestJobsProvider.fetch_jobs`: first request with `limit=24` and the
constructor's remote flag to learn `total`; second request with
`limit=total` and `remote=1`; returns the items of the second response and
the trace of requests issued.  A missing `total` or `items` key raises
`KeyError`. -/
def bestjobs_fetch (remote : Bool) (http : BRequest → BResponse) :
    Except String (List RecordRow) × List BRequest :=
  let req1 : BRequest := { offset := 0, limit := 24, remote := if remote then 1 else 0 }
  match http req1 with
  | .netError e => (.error e, [req1])
  | .payload none _ => (.error "KeyError: total", [req1])
  | .payload (some total) _ =>
    let req2 : BRequest := { offset := 0, limit := total, remote := 1 }
    match http req2 with
    | .netError e => (.error e, [req1, req2])
    | .payload _ none => (.error "KeyError: items", [req1, req2])
    | .payload _ (some items) => (.ok items, [req1, req2])

/-! ## Orchestration (`core/scraper.py`) -/

/-- The pandas mask `df[c].notna() & (df[c] != '')` for the apply-URL
column, evaluated on one row. -/
def applyUrlPresent (cols : List String) (row : List Cell) : Bool :=
  match rowGet cols row "ownApplyUrl" with
  | .null => false
  | .str s => decide (s ≠ "")
  | .int _ => true

/-- The external-jobs block of `scrape_jobs`: filter both projected frames
to rows with a present, non-empty apply URL; concatenate eJobs rows then
BestJobs rows when at least one such row exists, otherwise `None`. -/
def derive_external (df_ejobs df_bjobs : DataFrame) : Option DataFrame :=
  let df_external_ejobs := df_ejobs.filterRows (fun r => applyUrlPresent df_ejobs.cols r)
  let df_external_bjobs := df_bjobs.filterRows (fun r => applyUrlPresent df_bjobs.cols r)
  if 0 < df_external_ejobs.rows.length ∨ 0 < df_external_bjobs.rows.length then
    some (DataFrame.concat df_external_ejobs df_external_bjobs)
  else none

/-- `scrape_jobs`, with the two provider fetch results and the
banned-words file as inputs.  Each projection `df[required_columns]`
raises `KeyError` when a required column is absent (the preceding
missing-column check only prints a warning); an empty eJobs fetch is
replaced by an empty frame carrying the eJobs required columns and skips
the `creationDate` sort. -/
def scrape_jobs (bestjobs_data ejobs_data : List RecordRow)
    (bannedFile : Option (List String)) :
    Except String (DataFrame × DataFrame × Option DataFrame) :=
  match (DataFrame.ofRecords bestjobs_data).select bestjobs_required_columns with
  | .error e => .error e
  | .ok df_bjobs0 =>
    let df_ejobs_raw := DataFrame.ofRecords ejobs_data
    let step_ejobs : Except String DataFrame :=
      if df_ejobs_raw.rows.length = 0 then
        .ok (DataFrame.emptyWith ejobs_required_columns)
      else
        match df_ejobs_raw.select ejobs_required_columns with
        | .error e => .error e
        | .ok d => .ok (d.sortValues "creationDate")
    match step_ejobs with
    | .error e => .error e
    | .ok df_ejobs0 =>
      let df_bjobs1 := filter_jobs_by_banned_words df_bjobs0 bannedFile
      let df_ejobs1 := filter_jobs_by_banned_words df_ejobs0 bannedFile
      let bjobs_links := df_bjobs1.rows.map (fun r => bestjobs_link df_bjobs1.cols r)
      let ejobs_links := df_ejobs1.rows.map (fun r => ejobs_link df_ejobs1.cols r)
      match df_bjobs1.select ["title", "companyName", "ownApplyUrl"] with
      | .error e => .error e
      | .ok df_bjobs2 =>
        match df_ejobs1.select ["title", "creationDate", "expirationDate", "externalUrl"] with
        | .error e => .error e
        | .ok df_ejobs2p =>
          let df_ejobs2 := df_ejobs2p.renameCol "externalUrl" "ownApplyUrl"
          let external_jobs := derive_external df_ejobs2 df_bjobs2
          let df_bjobs3 := df_bjobs2.addCol "link" bjobs_links
          let df_ejobs3 := df_ejobs2.addCol "link" ejobs_links
          .ok (df_bjobs3, df_ejobs3, external_jobs)

/-- The triple `scrape_jobs` produces. -/
abbrev ScrapeResult := DataFrame × DataFrame × Option DataFrame

/-- `BackgroundScraper._scrape_worker`: the scrape and the cache save are
inputs (each may raise); the rate-gate file is written only after both
succeed, and any exception is routed to `set_error`. -/
def scrape_worker (scrape : Except String ScrapeResult)
    (save : ScrapeResult → Except String Unit)
    (now : Nat) (tnow : Int) (st : ScraperStatus) (gate : FileState) :
    ScraperStatus × FileState :=
  let st1 := set_status st "running" "Starting job scraping..." now
  let st2 := set_status st1 "running" "Fetching jobs from providers..." now
  match scrape with
  | .error e => (set_error st2 e, gate)
  | .ok data =>
    let st3 := set_status st2 "running" "Saving jobs to CSV..." now
    match save data with
    | .error e => (set_error st3 e, gate)
    | .ok _ =>
      let st4 := set_status st3 "running" "Updating timestamp..." now
      let gate2 := update_timestamp tnow gate
      (set_status st4 "completed" "Successfully scraped" now, gate2)

/-- `run_scraper_or_load_cache` (the foreground path): when the gate
permits, scrape then save then update the timestamp, a failure of either
step returning `None` with the gate file untouched; when the gate refuses,
serve the cache when present. -/
def run_scraper_or_load_cache (tnow : Int) (scrape : Except String ScrapeResult)
    (save : ScrapeResult → Except String Unit)
    (cacheExists : Bool) (cached : ScrapeResult) (gate : FileState) :
    Option ScrapeResult × FileState :=
  if (check_last_run tnow gate).1 then
    match scrape with
    | .error _ => (none, gate)
    | .ok data =>
      match save data with
      | .error _ => (none, gate)
      | .ok _ => (some data, update_timestamp tnow gate)
  else if cacheExists then (some cached, gate)
  else (none, gate)

/-! ## Helper lemmas -/

theorem set_status_status (s : ScraperStatus) (st p : String) (now : Nat) :
    (set_status s st p now).status = st := by
  simp only [set_status]
  split
  · rfl
  · split <;> rfl

theorem set_status_running_start_time (s : ScraperStatus) (p : String) (now : Nat) :
    (set_status s "running" p now).start_time
      = if s.start_time = none then some now else s.start_time := by
  unfold set_status
  by_cases h : s.start_time = none <;> simp [h]

theorem set_status_running_end_time (s : ScraperStatus) (p : String) (now : Nat) :
    (set_status s "running" p now).end_time = s.end_time := by
  unfold set_status
  by_cases h : s.start_time = none <;> simp [h]

theorem set_status_terminal_end_time (s : ScraperStatus) (st p : String) (now : Nat)
    (h : st = "completed" ∨ st = "failed") :
    (set_status s st p now).end_time = some now := by
  rcases h with h | h <;> subst h <;> simp [set_status]

/-! ## Claims -/

/-- C1.  Single-flight start: whenever the worker thread slot holds a
still-alive thread, `start` returns `false` and spawns nothing (whatever
the rate gate says); when the gate permits and no previous thread is
alive, `start` sets the status to `running`, spawns the worker and returns
`true`; hence two starts in a row while the first run is alive return
`(true, false)`. -/
theorem start_single_flight (s : BackgroundScraper) (gate g2 : Bool) (now now2 : Nat) :
    (threadAliveCheck s.thread = true →
      (s.start gate now).2.1 = false ∧ (s.start gate now).2.2 = false)
    ∧ (gate = true → threadAliveCheck s.thread = false →
        (s.start gate now).1.status.status = "running"
        ∧ (s.start gate now).1.thread = some true
        ∧ (s.start gate now).2.1 = true
        ∧ (s.start gate now).2.2 = true)
    ∧ (gate = true → threadAliveCheck s.thread = false →
        (s.start gate now).2.1 = true
        ∧ ((s.start gate now).1.start g2 now2).2.1 = false) := by
  refine ⟨?_, ?_, ?_⟩
  · intro h
    cases gate <;> simp [BackgroundScraper.start, h]
  · intro hg ht
    subst hg
    simp [BackgroundScraper.start, ht, set_status_status]
  · intro hg ht
    subst hg
    rcases hth : s.thread with _ | alive
    · cases g2 <;> simp [BackgroundScraper.start, threadAliveCheck, hth]
    · rw [hth] at ht
      simp only [threadAliveCheck] at ht
      subst ht
      cases g2 <;> simp [BackgroundScraper.start, threadAliveCheck, hth]

/-- Witness for C1 at a concrete state: from a fresh scraper, the first
start returns `true` and the immediately following start returns
`false`. -/
theorem start_single_flight_witness :
    ((BackgroundScraper.mk ScraperStatus.init none).start true 0).2.1 = true
    ∧ (((BackgroundScraper.mk ScraperStatus.init none).start true 0).1.start true 1).2.1
        = false := by
  have h := start_single_flight (BackgroundScraper.mk ScraperStatus.init none) true true 0 1
  exact h.2.2 rfl rfl

/-- C2.  `check_last_run` never modifies the timestamp file; it returns
`true` for an absent, unreadable or unparsable file, and for a parsable
stored timestamp it returns `true` exactly when at least 24 hours have
elapsed (so a future-dated timestamp yields `false`). -/
theorem check_last_run_spec (now : Int) (fs : FileState) :
    (check_last_run now fs).2 = fs
    ∧ (fs = .absent → (check_last_run now fs).1 = true)
    ∧ (fs = .unreadable → (check_last_run now fs).1 = true)
    ∧ (∀ raw, fs = .unparsable raw → (check_last_run now fs).1 = true)
    ∧ (∀ t, fs = .parsable t →
        ((check_last_run now fs).1 = true ↔ secondsPerDay ≤ now - t)) := by
  rcases fs <;> simp [check_last_run]

/-- Witness for C2: exactly 24 hours yields `true`, 23h59m yields
`false`, a future-dated timestamp yields `false`, an absent file yields
`true`, and the file state is returned unchanged. -/
theorem check_last_run_spec_witness :
    (check_last_run 86400 (FileState.parsable 0)).1 = true
    ∧ (check_last_run 86340 (FileState.parsable 0)).1 = false
    ∧ (check_last_run 0 (FileState.parsable 3600)).1 = false
    ∧ (check_last_run 5 FileState.absent).1 = true
    ∧ (check_last_run 5 (FileState.parsable 0)).2 = FileState.parsable 0 := by
  have h1 := check_last_run_spec 86400 (FileState.parsable 0)
  have h2 := check_last_run_spec 5 FileState.absent
  have h3 := check_last_run_spec 5 (FileState.parsable 0)
  exact ⟨(h1.2.2.2.2 0 rfl).mpr (by decide), by decide, by decide, h2.2.1 rfl, h3.1⟩

/-- C3 counterexample.  A run that enters `running` and then records its
failure through `set_error` ends with status `failed` but with `end_time`
still unset: `set_error` does not write `end_time`, contradicting the
claim that `end_time` is set on a failure recorded via the error-setting
path. -/
theorem set_error_no_end_time_cex :
    (applyOps ScraperStatus.init
      [StatusOp.setSt "running" "Starting job scraping..." 0,
       StatusOp.setErr "network timeout"]).status = "failed"
    ∧ (applyOps ScraperStatus.init
      [StatusOp.setSt "running" "Starting job scraping..." 0,
       StatusOp.setErr "network timeout"]).end_time = none := by
  constructor <;> decide

/-- C3 amended.  `start_time` is set on the first transition into
`running` and untouched by later `running` updates; a `running` update
never touches `end_time`; a `set_status` transition to `completed` or
`failed` sets `end_time`; but a failure recorded via `set_error` sets the
status to `failed` without touching `end_time` (or `start_time`). -/
theorem status_time_stamps_amended (s : ScraperStatus) (p st e : String) (now : Nat) :
    ((set_status s "running" p now).start_time
        = if s.start_time = none then some now else s.start_time)
    ∧ (set_status s "running" p now).end_time = s.end_time
    ∧ (st = "completed" ∨ st = "failed" → (set_status s st p now).end_time = some now)
    ∧ (set_error s e).status = "failed"
    ∧ (set_error s e).end_time = s.end_time
    ∧ (set_error s e).start_time = s.start_time := by
  exact ⟨set_status_running_start_time s p now,
         set_status_running_end_time s p now,
         fun h => set_status_terminal_end_time s st p now h,
         rfl, rfl, rfl⟩

/-- Witness for C3 amended at concrete states: the first `running` update
sets `start_time`, a terminal `failed` update sets `end_time`, and
`set_error` leaves `end_time` unset. -/
theorem status_time_stamps_amended_witness :
    (set_status ScraperStatus.init "running" "x" 3).start_time = some 3
    ∧ (set_status ScraperStatus.init "failed" "x" 4).end_time = some 4
    ∧ (set_error ScraperStatus.init "boom").end_time = none := by
  have h3 := status_time_stamps_amended ScraperStatus.init "x" "failed" "boom" 3
  have h4 := status_time_stamps_amended ScraperStatus.init "x" "failed" "boom" 4
  exact ⟨h3.1.trans (by decide), h4.2.2.1 (Or.inr rfl), h3.2.2.2.2.1⟩

/-- C4.  Failure atomicity of the rate gate: whenever the scrape fails,
or the scrape succeeds but the cache save fails, both the background
worker and the foreground path leave the timestamp file exactly as it
was. -/
theorem gate_failure_atomicity
    (scrape : Except String ScrapeResult) (save : ScrapeResult → Except String Unit)
    (now : Nat) (tnow : Int) (st : ScraperStatus) (gate : FileState)
    (cacheExists : Bool) (cached : ScrapeResult)
    (h : ∀ data, scrape = .ok data → ∃ e, save data = .error e) :
    (scrape_worker scrape save now tnow st gate).2 = gate
    ∧ (run_scraper_or_load_cache tnow scrape save cacheExists cached gate).2 = gate := by
  rcases hs : scrape with e | data
  · constructor
    · simp [scrape_worker]
    · unfold run_scraper_or_load_cache
      split
      · simp
      · split <;> simp
  · obtain ⟨e, he⟩ := h data hs
    constructor
    · simp [scrape_worker, he]
    · unfold run_scraper_or_load_cache
      split
      · simp [he]
      · split <;> simp

/-- Witness for C4: with a failed scrape, the worker and the foreground
path leave a concrete gate file `parsable 7` as it was. -/
theorem gate_failure_atomicity_witness :
    (scrape_worker (Except.error "timeout") (fun _ => Except.ok ()) 0 0
        ScraperStatus.init (FileState.parsable 7)).2 = FileState.parsable 7
    ∧ (run_scraper_or_load_cache 0 (Except.error "timeout") (fun _ => Except.ok ())
        false (DataFrame.emptyWith [], DataFrame.emptyWith [], none)
        (FileState.parsable 7)).2 = FileState.parsable 7 := by
  exact gate_failure_atomicity (Except.error "timeout") (fun _ => Except.ok ()) 0 0
    ScraperStatus.init (FileState.parsable 7) false
    (DataFrame.emptyWith [], DataFrame.emptyWith [], none)
    (by intro d hd; exact absurd hd (by simp))

/-- The claim's notion of a usable apply URL: the cell is non-null and
not the empty string. -/
def UrlOk (c : Cell) : Prop := c ≠ Cell.null ∧ c ≠ Cell.str ""

instance (c : Cell) : Decidable (UrlOk c) := by
  unfold UrlOk
  infer_instance

theorem applyUrlPresent_iff (cols : List String) (row : List Cell) :
    applyUrlPresent cols row = true ↔ UrlOk (rowGet cols row "ownApplyUrl") := by
  unfold applyUrlPresent UrlOk
  rcases h : rowGet cols row "ownApplyUrl" <;> simp

theorem applyUrlPresent_eq_decide (cols : List String) (row : List Cell) :
    applyUrlPresent cols row = decide (UrlOk (rowGet cols row "ownApplyUrl")) := by
  rw [Bool.eq_iff_iff]
  simp [applyUrlPresent_iff]

theorem rowGet_map_cols (tcols : List String) (f : String → Cell) (c : String)
    (hc : c ∈ tcols) : rowGet tcols (tcols.map f) c = f c := by
  unfold rowGet
  have hidx : tcols.indexOf c < tcols.length := List.indexOf_lt_length.mpr hc
  rw [List.getD_eq_getElem _ _ (by simpa using hidx)]
  simp [List.getElem_indexOf hidx]

theorem derive_external_eq_none_iff (e b : DataFrame) :
    derive_external e b = none ↔
      e.rows.filter (fun r => applyUrlPresent e.cols r) = []
      ∧ b.rows.filter (fun r => applyUrlPresent b.cols r) = [] := by
  simp only [derive_external, DataFrame.filterRows]
  split
  case isTrue h =>
    constructor
    · intro hh
      exact absurd hh (by simp)
    · rintro ⟨h1, h2⟩
      rcases h with h | h <;> simp only [h1, h2] at h <;> simp at h
  case isFalse h =>
    push_neg at h
    constructor
    · intro _
      constructor
      · exact List.length_eq_zero.mp (Nat.le_zero.mp (Nat.not_lt.mp (by simpa using h.1)))
      · exact List.length_eq_zero.mp (Nat.le_zero.mp (Nat.not_lt.mp (by simpa using h.2)))
    · intro _
      rfl

theorem derive_external_eq_some (e b : DataFrame) (ext : DataFrame)
    (h : derive_external e b = some ext) :
    ext = DataFrame.concat
            (e.filterRows (fun r => applyUrlPresent e.cols r))
            (b.filterRows (fun r => applyUrlPresent b.cols r)) := by
  simp only [derive_external] at h
  split at h
  · exact (Option.some.injEq _ _ ▸ h).symm
  · exact absurd h (by simp)

theorem concat_rows_length (d1 d2 : DataFrame) :
    (d1.concat d2).rows.length = d1.rows.length + d2.rows.length := by
  simp [DataFrame.concat]

theorem concat_take_block (d1 d2 : DataFrame) (c : String) (hc : c ∈ d1.cols) :
    ((d1.concat d2).rows.take d1.rows.length).map (fun r => rowGet (d1.concat d2).cols r c)
      = d1.rows.map (fun r => rowGet d1.cols r c) := by
  simp only [DataFrame.concat]
  rw [← List.length_map d1.rows
        (fun r => (d1.cols ++ d2.cols.filter (fun x => ¬ d1.cols.contains x)).map
          (rowGet d1.cols r)),
      List.take_left, List.map_map]
  apply List.map_congr_left
  intro r _
  exact rowGet_map_cols _ (rowGet d1.cols r) c (List.mem_append_left _ hc)

theorem concat_drop_block (d1 d2 : DataFrame) (c : String) (hc : c ∈ d2.cols) :
    ((d1.concat d2).rows.drop d1.rows.length).map (fun r => rowGet (d1.concat d2).cols r c)
      = d2.rows.map (fun r => rowGet d2.cols r c) := by
  have hcu : c ∈ d1.cols ++ d2.cols.filter (fun x => ¬ d1.cols.contains x) := by
    by_cases h1 : c ∈ d1.cols
    · exact List.mem_append_left _ h1
    · refine List.mem_append_right _ ?_
      rw [List.mem_filter]
      exact ⟨hc, by simpa using h1⟩
  simp only [DataFrame.concat]
  rw [← List.length_map d1.rows
        (fun r => (d1.cols ++ d2.cols.filter (fun x => ¬ d1.cols.contains x)).map
          (rowGet d1.cols r)),
      List.drop_left, List.map_map]
  apply List.map_congr_left
  intro r _
  exact rowGet_map_cols _ (rowGet d2.cols r) c hcu

/-- C5.  External-listing derivation: the result is `None` exactly when
neither table has a row with a non-null, non-empty apply URL; otherwise
the external table has exactly the qualifying eJobs rows followed by the
qualifying BestJobs rows, each block preserving its table's internal
order and keeping every original column's values (rows are realigned to
the union of the two column sets). -/
theorem external_listing_derivation (e b : DataFrame) :
    (derive_external e b = none ↔
      (∀ r ∈ e.rows, ¬ UrlOk (rowGet e.cols r "ownApplyUrl"))
      ∧ (∀ r ∈ b.rows, ¬ UrlOk (rowGet b.cols r "ownApplyUrl")))
    ∧ (∀ ext, derive_external e b = some ext →
        ∃ eKeep bKeep,
          eKeep = e.rows.filter (fun r => decide (UrlOk (rowGet e.cols r "ownApplyUrl")))
          ∧ bKeep = b.rows.filter (fun r => decide (UrlOk (rowGet b.cols r "ownApplyUrl")))
          ∧ ext.rows.length = eKeep.length + bKeep.length
          ∧ (∀ c ∈ e.cols,
              (ext.rows.take eKeep.length).map (fun r => rowGet ext.cols r c)
                = eKeep.map (fun r => rowGet e.cols r c))
          ∧ (∀ c ∈ b.cols,
              (ext.rows.drop eKeep.length).map (fun r => rowGet ext.cols r c)
                = bKeep.map (fun r => rowGet b.cols r c))) := by
  constructor
  · rw [derive_external_eq_none_iff]
    rw [List.filter_eq_nil_iff, List.filter_eq_nil_iff]
    simp only [applyUrlPresent_iff]
  · intro ext hext
    have hx := derive_external_eq_some e b ext hext
    subst hx
    have heq : ∀ (d : DataFrame),
        d.rows.filter (fun r => applyUrlPresent d.cols r)
          = d.rows.filter (fun r => decide (UrlOk (rowGet d.cols r "ownApplyUrl"))) := by
      intro d
      exact List.filter_congr (fun r _ => applyUrlPresent_eq_decide d.cols r)
    refine ⟨e.rows.filter (fun r => applyUrlPresent e.cols r),
            b.rows.filter (fun r => applyUrlPresent b.cols r),
            heq e, heq b, ?_, ?_, ?_⟩
    · rw [concat_rows_length]
      simp [DataFrame.filterRows, heq e, heq b]
    · intro c hc
      exact concat_take_block _ _ c hc
    · intro c hc
      exact concat_drop_block _ _ c hc

/-- Witness for C5, at the spec's own example: a BestJobs row with an
empty apply URL and an eJobs row with a non-empty one; the external table
is exactly the eJobs row. -/
theorem external_listing_derivation_witness :
    derive_external
        (DataFrame.mk ["title", "ownApplyUrl"] [[Cell.str "E1", Cell.str "http://e"]])
        (DataFrame.mk ["title", "companyName", "ownApplyUrl"]
          [[Cell.str "B1", Cell.str "C", Cell.str ""]])
      = some (DataFrame.mk ["title", "ownApplyUrl", "companyName"]
          [[Cell.str "E1", Cell.str "http://e", Cell.null]])
    ∧ (DataFrame.mk ["title", "ownApplyUrl", "companyName"]
        [[Cell.str "E1", Cell.str "http://e", Cell.null]] : DataFrame).rows.length = 1 := by
  have h := (external_listing_derivation
      (DataFrame.mk ["title", "ownApplyUrl"] [[Cell.str "E1", Cell.str "http://e"]])
      (DataFrame.mk ["title", "companyName", "ownApplyUrl"]
        [[Cell.str "B1", Cell.str "C", Cell.str ""]])).2
    (DataFrame.mk ["title", "ownApplyUrl", "companyName"]
      [[Cell.str "E1", Cell.str "http://e", Cell.null]]) (by decide)
  obtain ⟨eKeep, bKeep, he, hb, hlen, -, -⟩ := h
  refine ⟨by decide, ?_⟩
  rw [hlen, he, hb]
  decide

theorem filter_jobs_cols (df : DataFrame) (bf : Option (List String)) :
    (filter_jobs_by_banned_words df bf).cols = df.cols := by
  simp only [filter_jobs_by_banned_words]
  split
  · rfl
  · split <;> rfl

theorem filterRows_idem (df : DataFrame) (p : List Cell → Bool) :
    (df.filterRows p).filterRows p = df.filterRows p := by
  simp [DataFrame.filterRows, List.filter_filter]

theorem bannedMask_eq (cols : List String) (bw : List String) (r : List Cell) :
    bannedMask cols bw r
      = decide (¬ ∃ w ∈ bw,
          pyLower w <:+: pyLower (rowGet cols r "title").strVal) := by
  rw [Bool.eq_iff_iff]
  simp [bannedMask, pyIn]

theorem filter_jobs_on_filtered (df : DataFrame) (bf : Option (List String)) :
    filter_jobs_by_banned_words
        (df.filterRows (bannedMask df.cols (load_banned_words bf))) bf
      = df.filterRows (bannedMask df.cols (load_banned_words bf)) := by
  simp only [filter_jobs_by_banned_words]
  split
  · rfl
  · split
    · exact filterRows_idem df _
    · rfl

theorem filter_jobs_cases (df : DataFrame) (bf : Option (List String)) :
    filter_jobs_by_banned_words df bf = df
    ∨ filter_jobs_by_banned_words df bf
        = df.filterRows (bannedMask df.cols (load_banned_words bf)) := by
  simp only [filter_jobs_by_banned_words]
  split
  · exact Or.inl rfl
  · split
    · exact Or.inr rfl
    · exact Or.inl rfl

theorem filter_jobs_shortcircuit (df : DataFrame) (bf : Option (List String))
    (h : df.rows = [] ∨ load_banned_words bf = []) :
    filter_jobs_by_banned_words df bf = df := by
  have hc : df.rows.length = 0 ∨ load_banned_words bf = [] := by
    rcases h with h | h
    · exact Or.inl (by simp [h])
    · exact Or.inr h
  simp only [filter_jobs_by_banned_words]
  rw [if_pos hc]

/-- C6.  Filter semantics: on a table whose titles are all strings (the
code's exception path otherwise returns the input unfiltered, per the
spec's own degradation rule), a listing is dropped iff its title contains
some banned word as a case-insensitive substring; an empty table, an
empty banned-word list or an absent banned-words file returns the input
unchanged; and filtering is idempotent unconditionally. -/
theorem filter_semantics (df : DataFrame) (bf : Option (List String)) :
    ((df.cols.contains "title" ∧ df.rows.all (fun r => (rowGet df.cols r "title").isStr)) →
      (filter_jobs_by_banned_words df bf).cols = df.cols
      ∧ (filter_jobs_by_banned_words df bf).rows
          = df.rows.filter (fun r => decide (¬ ∃ w ∈ load_banned_words bf,
              pyLower w <:+: pyLower (rowGet df.cols r "title").strVal)))
    ∧ ((df.rows = [] ∨ load_banned_words bf = []) → filter_jobs_by_banned_words df bf = df)
    ∧ (bf = none → filter_jobs_by_banned_words df bf = df)
    ∧ filter_jobs_by_banned_words (filter_jobs_by_banned_words df bf) bf
        = filter_jobs_by_banned_words df bf := by
  refine ⟨?_, ?_, ?_, ?_⟩
  · intro hguard
    refine ⟨filter_jobs_cols df bf, ?_⟩
    have hmask : df.rows.filter (bannedMask df.cols (load_banned_words bf))
        = df.rows.filter (fun r => decide (¬ ∃ w ∈ load_banned_words bf,
            pyLower w <:+: pyLower (rowGet df.cols r "title").strVal)) :=
      List.filter_congr (fun r _ => bannedMask_eq df.cols (load_banned_words bf) r)
    by_cases hc : df.rows.length = 0 ∨ load_banned_words bf = []
    · rw [filter_jobs_shortcircuit df bf ?_]
      · rcases hc with h | h
        · rw [List.length_eq_zero] at h
          rw [h]
          simp
        · rw [h]
          exact (List.filter_eq_self.mpr (fun r _ => by simp)).symm
      · rcases hc with h | h
        · exact Or.inl (List.length_eq_zero.mp h)
        · exact Or.inr h
    · simp only [filter_jobs_by_banned_words]
      rw [if_neg hc, if_pos hguard]
      exact hmask
  · exact filter_jobs_shortcircuit df bf
  · intro h
    subst h
    exact filter_jobs_shortcircuit df none (Or.inr rfl)
  · rcases filter_jobs_cases df bf with h | h
    · rw [h]
      exact h
    · rw [h]
      exact filter_jobs_on_filtered df bf

/-- Witness for C6 at the spec's examples: with banned words `sales` and
`manager`, the titles `SALES REP` and `Wholesale Manager` are dropped and
`Engineer` survives; an absent banned-words file leaves the table
unchanged; filtering twice equals filtering once. -/
theorem filter_semantics_witness :
    (filter_jobs_by_banned_words
        (DataFrame.mk ["title"]
          [[Cell.str "SALES REP"], [Cell.str "Wholesale Manager"], [Cell.str "Engineer"]])
        (some ["sales", "manager"])).rows
      = [[Cell.str "Engineer"]]
    ∧ filter_jobs_by_banned_words
        (DataFrame.mk ["title"] [[Cell.str "SALES REP"]]) none
      = DataFrame.mk ["title"] [[Cell.str "SALES REP"]]
    ∧ filter_jobs_by_banned_words
        (filter_jobs_by_banned_words
          (DataFrame.mk ["title"]
            [[Cell.str "SALES REP"], [Cell.str "Wholesale Manager"], [Cell.str "Engineer"]])
          (some ["sales", "manager"]))
        (some ["sales", "manager"])
      = filter_jobs_by_banned_words
          (DataFrame.mk ["title"]
            [[Cell.str "SALES REP"], [Cell.str "Wholesale Manager"], [Cell.str "Engineer"]])
          (some ["sales", "manager"]) := by
  have h1 := (filter_semantics
      (DataFrame.mk ["title"]
        [[Cell.str "SALES REP"], [Cell.str "Wholesale Manager"], [Cell.str "Engineer"]])
      (some ["sales", "manager"])).1 (by decide)
  have h2 := (filter_semantics
      (DataFrame.mk ["title"] [[Cell.str "SALES REP"]]) none).2.2.1 rfl
  have h3 := (filter_semantics
      (DataFrame.mk ["title"]
        [[Cell.str "SALES REP"], [Cell.str "Wholesale Manager"], [Cell.str "Engineer"]])
      (some ["sales", "manager"])).2.2.2
  exact ⟨h1.2.trans (by decide), h2, h3⟩

theorem select_ok (df : DataFrame) (cs : List String)
    (h : cs.all (fun c => df.cols.contains c) = true) :
    df.select cs
      = .ok (DataFrame.mk cs (df.rows.map (fun r => cs.map (rowGet df.cols r)))) := by
  unfold DataFrame.select
  rw [if_pos h]

theorem select_error (df : DataFrame) (cs : List String)
    (h : ¬ cs.all (fun c => df.cols.contains c) = true) :
    df.select cs = .error "KeyError: columns not in index" := by
  unfold DataFrame.select
  rw [if_neg h]

/-- C7 counterexample.  A BestJobs fetch result that lacks the required
`ownApplyUrl` column makes the projection `df[required_columns]` raise
`KeyError`: the run aborts with an error instead of proceeding with the
missing column omitted. -/
theorem projection_missing_column_cex :
    scrape_jobs
      [[("id", Cell.int 1), ("slug", Cell.str "s"), ("title", Cell.str "T"),
        ("companyName", Cell.str "C"), ("active", Cell.int 1)]]
      [] none
      = Except.error "KeyError: columns not in index" := rfl

/-- C7 amended.  Missing required columns are logged but not omitted: the
projection still subscripts with the full required-column list, so any
missing required BestJobs column — and, for a nonempty eJobs fetch
result, any missing required eJobs column — aborts the run with a
`KeyError`. -/
theorem projection_missing_column_amended (bdata edata : List RecordRow)
    (bf : Option (List String)) :
    (¬ bestjobs_required_columns.all
        (fun c => (DataFrame.ofRecords bdata).cols.contains c) = true →
      scrape_jobs bdata edata bf = Except.error "KeyError: columns not in index")
    ∧ (bestjobs_required_columns.all
        (fun c => (DataFrame.ofRecords bdata).cols.contains c) = true →
      (DataFrame.ofRecords edata).rows.length ≠ 0 →
      ¬ ejobs_required_columns.all
          (fun c => (DataFrame.ofRecords edata).cols.contains c) = true →
      scrape_jobs bdata edata bf = Except.error "KeyError: columns not in index") := by
  constructor
  · intro h
    simp only [scrape_jobs, select_error _ _ h]
  · intro hb hne he
    simp only [scrape_jobs, select_ok _ _ hb, select_error _ _ he, if_neg hne]

/-- Witness for C7 amended: a BestJobs record missing `ownApplyUrl`, and
a nonempty eJobs result missing most required columns, each abort the
run. -/
theorem projection_missing_column_amended_witness :
    scrape_jobs
      [[("id", Cell.int 1), ("slug", Cell.str "s2"), ("title", Cell.str "T"),
        ("companyName", Cell.str "C"), ("active", Cell.int 1)]]
      [[("id", Cell.int 5), ("title", Cell.str "E")]] none
      = Except.error "KeyError: columns not in index"
    ∧ scrape_jobs
      [[("id", Cell.int 1), ("slug", Cell.str "s2"), ("title", Cell.str "T"),
        ("companyName", Cell.str "C"), ("active", Cell.int 1),
        ("ownApplyUrl", Cell.null)]]
      [[("id", Cell.int 5), ("title", Cell.str "E")]] none
      = Except.error "KeyError: columns not in index" := by
  constructor
  · exact (projection_missing_column_amended
      [[("id", Cell.int 1), ("slug", Cell.str "s2"), ("title", Cell.str "T"),
        ("companyName", Cell.str "C"), ("active", Cell.int 1)]]
      [[("id", Cell.int 5), ("title", Cell.str "E")]] none).1 (by decide)
  · exact (projection_missing_column_amended
      [[("id", Cell.int 1), ("slug", Cell.str "s2"), ("title", Cell.str "T"),
        ("companyName", Cell.str "C"), ("active", Cell.int 1),
        ("ownApplyUrl", Cell.null)]]
      [[("id", Cell.int 5), ("title", Cell.str "E")]] none).2
      (by decide) (by decide) (by decide)

/-- C8 counterexample.  A response lacking the `jobs` field on the very
first page is not fatal: the fetch breaks out of the loop and returns an
empty successful result, not an error. -/
theorem ejobs_first_page_missing_cex :
    ejobs_fetch_jobs (fun _ => EPageResp.payload none false) 5
      = some (Except.ok ([] : List RecordRow)) := rfl

theorem ejobs_loop_stop (pages : Nat → EPageResp) (js : Nat → List RecordRow) :
    ∀ (n fuel page : Nat) (acc : List RecordRow) (m : Bool),
      n + 1 ≤ fuel →
      (∀ i, i < n → pages (page + i) = EPageResp.payload (some (js (page + i))) true) →
      pages (page + n) = EPageResp.payload none m →
      ejobs_fetch_loop pages fuel page acc
        = some (Except.ok (acc ++ ((List.range n).map (fun i => js (page + i))).flatten)) := by
  intro n
  induction n with
  | zero =>
    intro fuel page acc m hfuel hgood hmiss
    match fuel, hfuel with
    | fuel + 1, _ =>
      simp only [ejobs_fetch_loop]
      rw [Nat.add_zero] at hmiss
      rw [hmiss]
      simp
  | succ n ih =>
    intro fuel page acc m hfuel hgood hmiss
    match fuel, hfuel with
    | fuel + 1, hf =>
      have h0 : pages page = EPageResp.payload (some (js page)) true := by
        have := hgood 0 (Nat.succ_pos n)
        simpa using this
      have ih2 := ih fuel (page + 1) (acc ++ js page) m (Nat.le_of_succ_le_succ hf)
        (fun i hi => by
          have := hgood (i + 1) (Nat.succ_lt_succ hi)
          rwa [show page + (i + 1) = page + 1 + i by omega] at this)
        (by rwa [show page + 1 + n = page + (n + 1) by omega])
      simp only [ejobs_fetch_loop, h0, if_pos]
      rw [ih2]
      congr 1
      congr 1
      rw [List.range_succ_eq_map, List.map_cons, List.flatten_cons, Nat.add_zero,
          ← List.append_assoc, List.map_map]
      congr 1
      congr 1
      apply List.map_congr_left
      intro i _
      show js (page + 1 + i) = js (page + Nat.succ i)
      congr 1
      omega

/-- C8 amended.  A response lacking the expected `jobs` field on any page
— including the very first — stops pagination non-fatally: the fetch
returns exactly the items accumulated from the earlier pages (the empty
list when it happens on page 1), never an error. -/
theorem ejobs_missing_jobs_nonfatal (pages : Nat → EPageResp) (js : Nat → List RecordRow)
    (k fuel : Nat) (m : Bool)
    (hk : 1 ≤ k) (hfuel : k ≤ fuel)
    (hgood : ∀ i, 1 ≤ i → i < k → pages i = EPageResp.payload (some (js i)) true)
    (hmiss : pages k = EPageResp.payload none m) :
    ejobs_fetch_jobs pages fuel
      = some (Except.ok (((List.range (k - 1)).map (fun i => js (1 + i))).flatten)) := by
  have h := ejobs_loop_stop pages js (k - 1) fuel 1 [] m (by omega)
    (fun i hi => hgood (1 + i) (by omega) (by omega))
    (by rwa [show 1 + (k - 1) = k by omega])
  simpa [ejobs_fetch_jobs] using h

/-- Witness for C8 amended: one good page followed by a page without
`jobs` yields exactly the first page's items. -/
theorem ejobs_missing_jobs_nonfatal_witness :
    ejobs_fetch_jobs
        (fun p => if p = 1
          then EPageResp.payload (some [[("id", Cell.int 1)]]) true
          else EPageResp.payload none false) 3
      = some (Except.ok [[("id", Cell.int 1)]]) := by
  have h := ejobs_missing_jobs_nonfatal
      (fun p => if p = 1
        then EPageResp.payload (some [[("id", Cell.int 1)]]) true
        else EPageResp.payload none false)
      (fun _ => [[("id", Cell.int 1)]]) 2 3 false (by omega) (by omega)
      (by
        intro i h1 h2
        have hi : i = 1 := by omega
        subst hi
        rfl)
      (by rfl)
  simpa using h

/-- C9.  Two-phase provider request shape: every successful BestJobs
fetch issues exactly the two requests `limit=24, remote=<caller flag>`
and `limit=<total from first response>, remote=1`, and returns the items
of the second response. -/
theorem bestjobs_two_phase (remote : Bool) (http : BRequest → BResponse)
    (items : List RecordRow)
    (h : (bestjobs_fetch remote http).1 = Except.ok items) :
    ∃ total t2 i1,
      http (BRequest.mk 0 24 (if remote then 1 else 0))
          = BResponse.payload (some total) i1
      ∧ http (BRequest.mk 0 total 1) = BResponse.payload t2 (some items)
      ∧ (bestjobs_fetch remote http).2
          = [BRequest.mk 0 24 (if remote then 1 else 0), BRequest.mk 0 total 1] := by
  rcases h1 : http { offset := 0, limit := 24, remote := if remote then 1 else 0 } with
    e | ⟨t, i1⟩
  · simp [bestjobs_fetch, h1] at h
  · rcases t with _ | total
    · simp [bestjobs_fetch, h1] at h
    · rcases h2 : http { offset := 0, limit := total, remote := 1 } with e2 | ⟨t2, i2⟩
      · simp [bestjobs_fetch, h1, h2] at h
      · rcases i2 with _ | items2
        · simp [bestjobs_fetch, h1, h2] at h
        · simp [bestjobs_fetch, h1, h2] at h
          subst h
          exact ⟨total, t2, i1, rfl, h2, by simp [bestjobs_fetch, h1, h2]⟩

/-- Witness for C9: a concrete response table with `total = 57`; the
fetch returns the items of the second response and the trace is exactly
the two expected requests. -/
theorem bestjobs_two_phase_witness :
    (bestjobs_fetch false
        (fun r => if r.limit = 24
          then BResponse.payload (some 57) (some [])
          else BResponse.payload none (some [[("id", Cell.int 9)]]))).2
      = [BRequest.mk 0 24 0, BRequest.mk 0 57 1] := by
  have h := bestjobs_two_phase false
    (fun r => if r.limit = 24
      then BResponse.payload (some 57) (some [])
      else BResponse.payload none (some [[("id", Cell.int 9)]]))
    [[("id", Cell.int 9)]] rfl
  obtain ⟨total, t2, i1, h1, h2, h3⟩ := h
  have ht : total = 57 := by
    simp at h1
    exact h1.1.symm
  subst ht
  exact h3

/-- C10.  An empty eJobs fetch result does not fail the run: the
pipeline substitutes an empty frame carrying the eJobs required columns,
skips the `creationDate` sort, and returns successfully, the eJobs
component being the empty frame with the final projected columns plus
`link`. -/
theorem ejobs_empty_tolerated (bdata : List RecordRow) (bf : Option (List String))
    (hb : bestjobs_required_columns.all
        (fun c => (DataFrame.ofRecords bdata).cols.contains c) = true) :
    (scrape_jobs bdata [] bf).map (fun t => t.2.1)
      = Except.ok
          (DataFrame.mk ["title", "creationDate", "expirationDate", "ownApplyUrl", "link"]
            []) := by
  have hsel1 := select_ok (DataFrame.ofRecords bdata) bestjobs_required_columns hb
  have hcols := filter_jobs_cols
      (DataFrame.mk bestjobs_required_columns
        ((DataFrame.ofRecords bdata).rows.map
          (fun r => bestjobs_required_columns.map (rowGet (DataFrame.ofRecords bdata).cols r))))
      bf
  have hsel2 := select_ok
      (filter_jobs_by_banned_words
        (DataFrame.mk bestjobs_required_columns
          ((DataFrame.ofRecords bdata).rows.map
            (fun r => bestjobs_required_columns.map (rowGet (DataFrame.ofRecords bdata).cols r))))
        bf)
      ["title", "companyName", "ownApplyUrl"]
      (by rw [hcols]; rfl)
  simp only [scrape_jobs, hsel1, hsel2]
  rfl

/-- Witness for C10: a well-formed one-row BestJobs result with an empty
eJobs result produces a successful run whose eJobs component is the empty
five-column frame. -/
theorem ejobs_empty_tolerated_witness :
    (scrape_jobs
        [[("id", Cell.int 1), ("slug", Cell.str "sw"), ("title", Cell.str "Dev"),
          ("companyName", Cell.str "Co"), ("active", Cell.int 1),
          ("ownApplyUrl", Cell.str "u")]]
        [] none).map (fun t => t.2.1)
      = Except.ok
          (DataFrame.mk ["title", "creationDate", "expirationDate", "ownApplyUrl", "link"]
            []) := by
  exact ejobs_empty_tolerated
    [[("id", Cell.int 1), ("slug", Cell.str "sw"), ("title", Cell.str "Dev"),
      ("companyName", Cell.str "Co"), ("active", Cell.int 1),
      ("ownApplyUrl", Cell.str "u")]]
    none (by decide)

end PyJobber
